import Mathlib

/-!
Verification of the gzip streaming adapter (`pkg/v1/v1util/zip.go`):
a pull-from-push compression bridge (`GzipReadCloserLevel`), a decompressing
source wrapper (`GunzipReadCloser`) and a format sniffer (`IsGzipped`).

Shallow embedding: a readable byte source is a list of bytes, optionally
followed by a read error.  The producer goroutine of the bridge is embedded
as the trace of close events it performs, together with the outcome the
consumer observes on the pipe's read end.  The external `compress/gzip`
codec is out of scope of the repository and is modelled from the spec as an
opaque, injective framing codec.
-/

/-- a byte, kept as a natural number -/
abbrev Byte := Nat

/-- errors that flow through the adapter: end-of-stream, the pipe's
closed-pipe error, a codec construction error for an invalid level, a bad
format header, a corrupt compressed stream, and arbitrary caller I/O errors -/
inductive GoErr where
  | eof
  | errClosedPipe
  | invalidLevel (level : Int)
  | badHeader
  | corrupt
  | custom (n : Nat)
deriving DecidableEq

/-- a readable byte source (`io.ReadCloser` read side): it delivers `bytes`
and then either signals end-of-stream (`readErr = none`) or fails with the
given read error -/
structure Source where
  bytes : List Byte
  readErr : Option GoErr
deriving DecidableEq

/-- close events performed by the bridge's producer goroutine, in order:
`pw.CloseWithError(e)`, `pw.Close()`, `gw.Close()` and `r.Close()` -/
inductive Ev where
  | pwCloseWithError (e : GoErr)
  | pwClose
  | gwClose
  | rClose
deriving DecidableEq

/-- what the consumer observes on the pipe's read end when reading the
bridge-produced source to completion: the delivered bytes, then either a
clean end-of-stream (`terminal = none`) or a read error -/
structure PipeOutcome where
  bytes : List Byte
  terminal : Option GoErr
deriving DecidableEq

namespace gzip

/-- `gzip.BestSpeed` -/
def BestSpeed : Int := 1

/-- `gzip.HuffmanOnly`, the smallest valid compression level -/
def HuffmanOnly : Int := -2

/-- `gzip.BestCompression`, the largest valid compression level -/
def BestCompression : Int := 9

/-- leading signature of the gzip format, bytes 0x1f 0x8b -/
def magic : List Byte := [0x1f, 0x8b]

/-- a compression level the codec accepts -/
def validLevel (level : Int) : Bool :=
  decide (HuffmanOnly ≤ level) && decide (level ≤ BestCompression)

/-- Modelled from the spec: `gzip.NewWriterLevel` (the external codec's
compressing-sink constructor, absent from `src/`) fails exactly on an
invalid compression level -/
def NewWriterLevel (level : Int) : Except GoErr Unit :=
  if validLevel level then Except.ok () else Except.error (GoErr.invalidLevel level)

/-- Modelled from the spec: the opaque framing the codec applies to the
payload bytes while they are written (each payload byte behind a 0 marker) -/
def stuff : List Byte → List Byte
  | [] => []
  | b :: bs => 0 :: b :: stuff bs

/-- Modelled from the spec: the bytes the compressing sink has pushed
downstream after the whole payload `b` was written to it, before release
(format header plus framed payload; the level only affects the ratio and is
opaque, so the model ignores it) -/
def compressBody (level : Int) (b : List Byte) : List Byte :=
  magic ++ stuff b

/-- Modelled from the spec: the buffered trailer bytes the compressing sink
flushes downstream only when it is released -/
def compressTrailer : List Byte := [1]

/-- Modelled from the spec: the complete compressed stream for payload `b`,
as seen downstream once the compressing sink has been released -/
def compress (level : Int) (b : List Byte) : List Byte :=
  compressBody level b ++ compressTrailer

/-- Modelled from the spec: reading the decompressing reader to completion
over the part of the stream that follows the format header: payload bytes
are recovered from their 0 markers until the trailer marker 1 -/
def decodePayload : List Byte → Except GoErr (List Byte)
  | 0 :: b :: rest => (decodePayload rest).map (fun l => b :: l)
  | 1 :: _ => Except.ok []
  | _ => Except.error GoErr.corrupt

/-- Modelled from the spec: `gzip.NewReader` (the external codec's
decompressing-source constructor, absent from `src/`) fails if the source's
leading bytes do not match the format signature; otherwise reading the
returned reader to completion yields the decompressed payload -/
def NewReader (src : List Byte) : Except GoErr (List Byte) :=
  if src.take 2 = magic then decodePayload (src.drop 2)
  else Except.error GoErr.badHeader

end gzip

/-- `io.Copy(gw, r)` as run by the producer goroutine: it drains `r` into the
compressing sink, whose output goes to the pipe's write end.  It returns
`r`'s read error if the source fails; if the consumer released the pipe's
read end early, the next pipe write fails and the copy returns
`ErrClosedPipe` (the abandonment-as-cancellation path of the spec) -/
def ioCopy (r : Source) (consumerClosed : Bool) : Option GoErr :=
  if consumerClosed then some GoErr.errClosedPipe else r.readErr

namespace v1util

/-- `var gzipMagicHeader = []byte{0x1f, 0x8b}` -/
def gzipMagicHeader : List Byte := [0x1f, 0x8b]

/-- the producer goroutine of `GzipReadCloserLevel`, embedded as the trace of
close events it performs plus the outcome the consumer observes on the
pipe's read end.  `consumerClosed` says whether the consumer released the
read end early, making the copy fail with `ErrClosedPipe`.  From the source:
construction failure returns `pw.CloseWithError(err)` at once; a copy error
evaluates `pw.CloseWithError(err)` in the return statement and then runs the
deferred `gw.Close()` and `r.Close()` (LIFO); success runs the deferred
`gw.Close()`, `r.Close()`, `pw.Close()` (LIFO) -/
def GzipReadCloserLevel (r : Source) (level : Int) (consumerClosed : Bool) :
    List Ev × PipeOutcome :=
  match gzip.NewWriterLevel level with
  | Except.error e => ([Ev.pwCloseWithError e], ⟨[], some e⟩)
  | Except.ok _ =>
    match ioCopy r consumerClosed with
    | some e =>
      ([Ev.pwCloseWithError e, Ev.gwClose, Ev.rClose],
       ⟨gzip.compressBody level r.bytes, some e⟩)
    | none =>
      ([Ev.gwClose, Ev.rClose, Ev.pwClose],
       ⟨gzip.compress level r.bytes, none⟩)

/-- `GzipReadCloser(r)`: delegates to `GzipReadCloserLevel` at `gzip.BestSpeed` -/
def GzipReadCloser (r : Source) (consumerClosed : Bool) : List Ev × PipeOutcome :=
  GzipReadCloserLevel r gzip.BestSpeed consumerClosed

/-- `GunzipReadCloser(r)`, read side: it constructs `gzip.NewReader` over the
compressed source and fails with that error if construction fails; on
success the returned source's reads delegate to the decompressing reader,
so reading it to completion yields the decompressed payload -/
def GunzipReadCloser (src : List Byte) : Except GoErr (List Byte) :=
  gzip.NewReader src

/-- the `CloseFunc` installed by `GunzipReadCloser`, as a function of the
results `gr.Close()` and `r.Close()` would produce.  It returns the returned
error together with whether `r.Close()` was invoked.  From the source: if
`gr.Close()` errors the function returns that error at once; only otherwise
does it call and return `r.Close()` -/
def gunzipCloseFunc (grCloseErr rCloseErr : Option GoErr) : Option GoErr × Bool :=
  match grCloseErr with
  | some e => (some e, false)
  | none => (rCloseErr, true)

/-- one `Read(p)` call with `len(p) = k` against a `bytes.Reader`-style
source holding `src`: a non-empty source returns up to `k` bytes with a nil
error, an exhausted source returns zero bytes and `io.EOF` -/
def readChunk (src : List Byte) (k : Nat) : List Byte × Option GoErr :=
  if src.length = 0 then ([], some GoErr.eof) else (src.take k, none)

/-- `IsGzipped(r)`: reads once into a zeroed 2-byte buffer, returns
`(false, nil)` on `n == 0 && err == io.EOF`, propagates any other read
error, and otherwise compares the buffer with `gzipMagicHeader` -/
def IsGzipped (src : List Byte) : Except GoErr Bool :=
  let res := readChunk src 2
  let magicHeader := res.1 ++ List.replicate (2 - res.1.length) 0
  if res.1.length = 0 ∧ res.2 = some GoErr.eof then Except.ok false
  else
    match res.2 with
    | some e => Except.error e
    | none => Except.ok (decide (magicHeader = gzipMagicHeader))

end v1util

/-- how many events of a producer trace release the pipe's write end
(`pw.Close()` or `pw.CloseWithError(e)`) -/
def pipeReleaseCount : List Ev → Nat
  | [] => 0
  | Ev.pwClose :: t => pipeReleaseCount t + 1
  | Ev.pwCloseWithError _ :: t => pipeReleaseCount t + 1
  | _ :: t => pipeReleaseCount t

/-- how many events of a producer trace release the compressing sink
(`gw.Close()`) -/
def gwCloseCount : List Ev → Nat
  | [] => 0
  | Ev.gwClose :: t => gwCloseCount t + 1
  | _ :: t => gwCloseCount t

/-- how many events of a producer trace release the wrapped input source
(`r.Close()`) -/
def rCloseCount : List Ev → Nat
  | [] => 0
  | Ev.rClose :: t => rCloseCount t + 1
  | _ :: t => rCloseCount t

/-- reading the modelled decompressor over a framed payload followed by the
trailer marker recovers the payload -/
theorem decodePayload_stuff (b : List Byte) :
    gzip.decodePayload (gzip.stuff b ++ [1]) = Except.ok b := by
  induction b with
  | nil => rfl
  | cons x xs ih => simp [gzip.stuff, gzip.decodePayload, ih, Except.map]

/-- the modelled codec round-trips: the decompressing reader inverts the
compressing sink on complete streams -/
theorem NewReader_compress (level : Int) (b : List Byte) :
    gzip.NewReader (gzip.compress level b) = Except.ok b := by
  have h : gzip.compress level b = 0x1f :: 0x8b :: (gzip.stuff b ++ [1]) := by
    simp [gzip.compress, gzip.compressBody, gzip.compressTrailer, gzip.magic]
  rw [h]
  simp [gzip.NewReader, gzip.magic, decodePayload_stuff]

/-- the sniffer over a byte-list source is the comparison of the source's
first two bytes with the magic header, and it never errors -/
theorem IsGzipped_eq_take2 (src : List Byte) :
    v1util.IsGzipped src = Except.ok (decide (src.take 2 = v1util.gzipMagicHeader)) := by
  match src with
  | [] => simp [v1util.IsGzipped, v1util.readChunk, v1util.gzipMagicHeader]
  | [a] =>
    simp [v1util.IsGzipped, v1util.readChunk, v1util.gzipMagicHeader,
      List.replicate]
  | a :: b :: t =>
    simp [v1util.IsGzipped, v1util.readChunk, v1util.gzipMagicHeader,
      List.replicate]

/-- C1: the claim as stated is false on the code: when releasing the
decompressing reader errors, `GunzipReadCloser`'s close function returns at
once and the original input source's release does not run -/
theorem claim_C1_counterexample :
    ¬ ((v1util.gunzipCloseFunc (some (GoErr.custom 7)) none).2 = true) := by
  decide

/-- C1 (amended): the release operation of the source returned by
`GunzipReadCloser` releases the decompressing reader and returns its error
when that release fails, without releasing the original input source; only
when the reader's release succeeds does it also release the original input
source and return that release's error -/
theorem claim_C1_amended (grE rE : Option GoErr) :
    v1util.gunzipCloseFunc grE rE = ((if grE.isNone then rE else grE), grE.isNone) := by
  cases grE <;> rfl

/-- C2: the claim as stated is false on the code: on the
codec-construction-failure exit path (invalid level 100) the wrapped input
source is never released (released zero times, not exactly once) -/
theorem claim_C2_counterexample :
    ¬ (rCloseCount (v1util.GzipReadCloserLevel ⟨[42], none⟩ 100 false).1 = 1) := by
  decide

/-- C2 (amended): on every exit path the pipe's write end is released
exactly once; the compressing sink and the wrapped input source are each
released exactly once on the successful-copy, copy-error and
consumer-initiated-early-termination paths, but zero times on the
codec-construction-failure path -/
theorem claim_C2_amended (r : Source) (level : Int) (c : Bool) :
    pipeReleaseCount (v1util.GzipReadCloserLevel r level c).1 = 1 ∧
    gwCloseCount (v1util.GzipReadCloserLevel r level c).1 =
      (if gzip.validLevel level = true then 1 else 0) ∧
    rCloseCount (v1util.GzipReadCloserLevel r level c).1 =
      (if gzip.validLevel level = true then 1 else 0) := by
  by_cases h : gzip.validLevel level = true
  · cases hc : ioCopy r c <;>
      simp [v1util.GzipReadCloserLevel, gzip.NewWriterLevel, h, hc,
        pipeReleaseCount, gwCloseCount, rCloseCount]
  · simp [v1util.GzipReadCloserLevel, gzip.NewWriterLevel, h,
      pipeReleaseCount, gwCloseCount, rCloseCount]

/-- C3: on the bridge's success path (valid level, the copy completes
without error, consumer still reading) the producer's trace is exactly
`gw.Close()`, then `r.Close()`, then `pw.Close()` — the compressing sink is
released strictly before the pipe's write end — and the consumer observes
the complete compressed stream including the flushed trailer bytes,
followed by a clean end-of-stream -/
theorem claim_C3 (r : Source) (level : Int)
    (h1 : gzip.validLevel level = true) (h2 : r.readErr = none) :
    v1util.GzipReadCloserLevel r level false =
      ([Ev.gwClose, Ev.rClose, Ev.pwClose],
       ⟨gzip.compressBody level r.bytes ++ gzip.compressTrailer, none⟩) := by
  simp [v1util.GzipReadCloserLevel, gzip.NewWriterLevel, ioCopy, h1, h2,
    gzip.compress]

/-- C3 witness at the one-byte payload `[5]` and level 1 -/
theorem claim_C3_witness :
    gzip.validLevel 1 = true ∧
    v1util.GzipReadCloserLevel ⟨[5], none⟩ 1 false =
      ([Ev.gwClose, Ev.rClose, Ev.pwClose],
       ⟨gzip.compressBody 1 [5] ++ gzip.compressTrailer, none⟩) :=
  ⟨by decide, claim_C3 ⟨[5], none⟩ 1 (by decide) rfl⟩

/-- C4: the claim as stated is false on the code: on a copy error the
producer does not release the input source and the compressing sink before
terminating the pipe — `pw.CloseWithError` is evaluated in the return
statement before the deferred closes run, so the trace matches neither
releases-then-terminate order -/
theorem claim_C4_counterexample :
    ¬ ((v1util.GzipReadCloserLevel ⟨[3], some (GoErr.custom 5)⟩ 1 false).1 =
         [Ev.gwClose, Ev.rClose, Ev.pwCloseWithError (GoErr.custom 5)] ∨
       (v1util.GzipReadCloserLevel ⟨[3], some (GoErr.custom 5)⟩ 1 false).1 =
         [Ev.rClose, Ev.gwClose, Ev.pwCloseWithError (GoErr.custom 5)]) := by
  decide

/-- C4 (amended): when the copy fails with error `E` (a source read error
or the consumer closing the read end early), the producer first terminates
the pipe's read end with `E` and then releases the compressing sink and the
input source; the consumer observes the bytes delivered so far followed by
the error `E`, never a clean end-of-stream -/
theorem claim_C4_amended (r : Source) (level : Int) (c : Bool) (E : GoErr)
    (h1 : gzip.validLevel level = true) (h2 : ioCopy r c = some E) :
    v1util.GzipReadCloserLevel r level c =
      ([Ev.pwCloseWithError E, Ev.gwClose, Ev.rClose],
       ⟨gzip.compressBody level r.bytes, some E⟩) := by
  simp [v1util.GzipReadCloserLevel, gzip.NewWriterLevel, h1, h2]

/-- C4 witness: a source whose read fails with `custom 5` after one byte -/
theorem claim_C4_witness :
    gzip.validLevel 1 = true ∧
    ioCopy ⟨[3], some (GoErr.custom 5)⟩ false = some (GoErr.custom 5) ∧
    v1util.GzipReadCloserLevel ⟨[3], some (GoErr.custom 5)⟩ 1 false =
      ([Ev.pwCloseWithError (GoErr.custom 5), Ev.gwClose, Ev.rClose],
       ⟨gzip.compressBody 1 [3], some (GoErr.custom 5)⟩) :=
  ⟨by decide, rfl,
    claim_C4_amended ⟨[3], some (GoErr.custom 5)⟩ 1 false (GoErr.custom 5)
      (by decide) rfl⟩

/-- C5: when construction of the compressing sink fails (invalid level) the
producer immediately terminates the pipe's read end with the construction
error and stops: its trace is that single event, no copy is attempted, no
bytes are delivered, and the consumer's next read observes that error -/
theorem claim_C5 (r : Source) (level : Int) (c : Bool)
    (h : gzip.validLevel level = false) :
    v1util.GzipReadCloserLevel r level c =
      ([Ev.pwCloseWithError (GoErr.invalidLevel level)],
       ⟨[], some (GoErr.invalidLevel level)⟩) := by
  simp [v1util.GzipReadCloserLevel, gzip.NewWriterLevel, h]

/-- C5 witness at invalid level 100 -/
theorem claim_C5_witness :
    gzip.validLevel 100 = false ∧
    v1util.GzipReadCloserLevel ⟨[7], none⟩ 100 false =
      ([Ev.pwCloseWithError (GoErr.invalidLevel 100)],
       ⟨[], some (GoErr.invalidLevel 100)⟩) :=
  ⟨by decide, claim_C5 ⟨[7], none⟩ 100 false (by decide)⟩

/-- C6: for every payload `B` and valid level `L`, the bridge over a source
delivering `B` terminates with a clean end-of-stream, and reading to
completion the source produced by `GunzipReadCloser` on the bridge's output
yields exactly `B` -/
theorem claim_C6 (B : List Byte) (level : Int)
    (h : gzip.validLevel level = true) :
    (v1util.GzipReadCloserLevel ⟨B, none⟩ level false).2.terminal = none ∧
    v1util.GunzipReadCloser (v1util.GzipReadCloserLevel ⟨B, none⟩ level false).2.bytes =
      Except.ok B := by
  have hb : v1util.GzipReadCloserLevel ⟨B, none⟩ level false =
      ([Ev.gwClose, Ev.rClose, Ev.pwClose], ⟨gzip.compress level B, none⟩) := by
    simp [v1util.GzipReadCloserLevel, gzip.NewWriterLevel, ioCopy, h]
  rw [hb]
  exact ⟨rfl, NewReader_compress level B⟩

/-- C6 witness at payload `[0, 1, 2]` and level 1 -/
theorem claim_C6_witness :
    gzip.validLevel 1 = true ∧
    ((v1util.GzipReadCloserLevel ⟨[0, 1, 2], none⟩ 1 false).2.terminal = none ∧
     v1util.GunzipReadCloser
        (v1util.GzipReadCloserLevel ⟨[0, 1, 2], none⟩ 1 false).2.bytes =
       Except.ok [0, 1, 2]) :=
  ⟨by decide, claim_C6 [0, 1, 2] 1 (by decide)⟩

/-- C7: the sniffer reports a match exactly when the first two bytes of the
source equal the magic header 0x1f 0x8b, and it reports it without error:
sources beginning with those two bytes get `true`, all others get `false` -/
theorem claim_C7 (src : List Byte) :
    v1util.IsGzipped src =
      Except.ok (decide (src.take 2 = v1util.gzipMagicHeader)) :=
  IsGzipped_eq_take2 src

/-- C8: on the empty source, whose only read returns zero bytes and
end-of-stream, the sniffer reports no match and no error -/
theorem claim_C8 : v1util.IsGzipped [] = Except.ok false :=
  IsGzipped_eq_take2 []

/-- C9: on a non-empty source shorter than two bytes the sniffer reports no
match and no error: the short read leaves the second buffer byte zero,
which never equals 0x8b -/
theorem claim_C9 (src : List Byte) (h1 : src ≠ []) (h2 : src.length < 2) :
    v1util.IsGzipped src = Except.ok false := by
  match src with
  | [] => exact absurd rfl h1
  | [a] =>
    rw [IsGzipped_eq_take2]
    simp [v1util.gzipMagicHeader]
  | a :: b :: t =>
    simp at h2
    omega

/-- C9 witness at the one-byte source `[0x1f]` -/
theorem claim_C9_witness :
    ([0x1f] : List Byte) ≠ [] ∧ ([0x1f] : List Byte).length < 2 ∧
    v1util.IsGzipped [0x1f] = Except.ok false :=
  ⟨by decide, by decide, claim_C9 [0x1f] (by decide) (by decide)⟩

/-- C10: the level-less constructor `GzipReadCloser` is exactly the leveled
constructor `GzipReadCloserLevel` specialized to `gzip.BestSpeed` -/
theorem claim_C10 (r : Source) (c : Bool) :
    v1util.GzipReadCloser r c = v1util.GzipReadCloserLevel r gzip.BestSpeed c :=
  rfl
